import Mathlib

/-!
Verification of the etude pipeline orchestrator against its specification.

The definitions below are shallow embeddings of the Python sources:
  - `server/app/core/state_machine.py`   (job state machine)
  - `server/app/services/job_service.py` (job store: status mutation)
  - `server/app/services/artifact_service.py` (artifact store)
  - `server/app/services/ir_service.py`  (IR load with checksum verification)
  - `server/app/services/omr_client.py`, `fingering_client.py` (retry policy)
  - `server/app/tasks/rendering_tasks.py` (rendering stage handler)
  - `services/renderer/app/resolvers/quantization.py` (duration quantization)

External collaborators (object storage, the database row for a job, the
SHA-256 function from hashlib, base64 decoding, JSON parsing of IR payloads)
are modelled as explicit function parameters or explicit record state, so
every definition is executable.  Byte strings are modelled as `List Nat`,
timestamps as `Nat`.  Python exceptions are modelled with `Except String` /
`Option`; quote characters inside Python error message literals are omitted.
-/

namespace Etude

/-! ## Job state machine (`server/app/core/state_machine.py`)

`JobStatus` values are carried as the raw strings the Python code compares
(`JobStatus.X.value`), matching the `VALID_TRANSITIONS` dict keyed by those
strings. -/

/-- Embeds the `VALID_TRANSITIONS` dict of `state_machine.py` (lines 14 to 48):
an association list from a status string to the set (here: list) of allowed
next status strings. -/
def VALID_TRANSITIONS : List (String × List String) :=
  [ ("pending", ["omr_processing", "failed"]),
    ("omr_processing", ["omr_completed", "omr_failed", "failed"]),
    ("omr_completed", ["fingering_processing", "failed"]),
    ("omr_failed", ["omr_processing", "failed"]),
    ("fingering_processing", ["fingering_completed", "fingering_failed", "failed"]),
    ("fingering_completed", ["rendering_processing", "failed"]),
    ("fingering_failed", ["fingering_processing", "failed"]),
    ("rendering_processing", ["completed", "failed"]),
    ("completed", []),
    ("failed", []) ]

/-- Dict lookup `VALID_TRANSITIONS[s]`, `none` when `s not in VALID_TRANSITIONS`. -/
def transitionsFor (s : String) : Option (List String) :=
  (VALID_TRANSITIONS.find? (fun p => p.1 == s)).map Prod.snd

/-- Embeds `validate_transition` (`state_machine.py` lines 51 to 72): returns
`(is_valid, error_message)`. -/
def validate_transition (current_status next_status : String) :
    Bool × Option String :=
  match transitionsFor current_status with
  | none => (false, some ("Unknown current status: " ++ current_status))
  | some allowed_next =>
    match transitionsFor next_status with
    | none => (false, some ("Unknown next status: " ++ next_status))
    | some _ =>
      if next_status ∈ allowed_next then
        (true, none)
      else
        (false, some ("Invalid transition from " ++ current_status ++ " to "
          ++ next_status ++ ". Allowed transitions: "
          ++ String.intercalate ", " allowed_next))

/-- Adjacency set of a status, empty for unknown statuses. -/
def adjacency (s : String) : List String := (transitionsFor s).getD []

/-- Whenever `validate_transition` reports `is_valid = false`, its error
message is present and non-empty (each of the three message templates starts
with a non-empty literal). -/
theorem validate_transition_reason_nonempty (c n : String)
    (h : (validate_transition c n).1 = false) :
    ∃ m, (validate_transition c n).2 = some m ∧ m ≠ "" := by
  unfold validate_transition at *
  cases h1 : transitionsFor c with
  | none =>
    refine ⟨_, rfl, ?_⟩
    intro hc
    have := congrArg String.length hc
    simp only [String.length_append] at this
    have hlit : 0 < "Unknown current status: ".length := by decide
    have hnil : "".length = 0 := rfl
    omega
  | some l =>
    cases h2 : transitionsFor n with
    | none =>
      refine ⟨_, rfl, ?_⟩
      intro hc
      have := congrArg String.length hc
      simp only [String.length_append] at this
      have hlit : 0 < "Unknown next status: ".length := by decide
      have hnil : "".length = 0 := rfl
      omega
    | some l2 =>
      by_cases hm : n ∈ l
      · rw [h1, h2] at h
        simp [hm] at h
      · simp only [h1, h2, hm, if_neg, if_false]
        refine ⟨_, rfl, ?_⟩
        intro hc
        have := congrArg String.length hc
        simp only [String.length_append] at this
        have hlit : 0 < "Invalid transition from ".length := by decide
        have hnil : "".length = 0 := rfl
        omega

/-- Whenever `validate_transition` reports `is_valid = true`, the error
component is `None`. -/
theorem validate_transition_true (c n : String)
    (h : (validate_transition c n).1 = true) :
    validate_transition c n = (true, none) := by
  unfold validate_transition at *
  cases h1 : transitionsFor c with
  | none => rw [h1] at h; cases h
  | some l =>
    cases h2 : transitionsFor n with
    | none => rw [h1, h2] at h; cases h
    | some l2 =>
      by_cases hm : n ∈ l
      · simp [h1, h2, hm]
      · rw [h1, h2] at h; simp [hm] at h

/-- Every status string appearing in some adjacency set of `VALID_TRANSITIONS`
is itself a key of `VALID_TRANSITIONS`. -/
theorem mem_adjacency_known (c x : String) (l : List String)
    (h : transitionsFor c = some l) (hx : x ∈ l) : transitionsFor x ≠ none := by
  have hfind : ∃ p ∈ VALID_TRANSITIONS, p.2 = l := by
    unfold transitionsFor at h
    cases hf : VALID_TRANSITIONS.find? (fun p => p.1 == c) with
    | none => rw [hf] at h; simp at h
    | some pr =>
      rw [hf] at h
      simp only [Option.map_some', Option.some.injEq] at h
      exact ⟨pr, List.mem_of_find?_eq_some hf, h⟩
  obtain ⟨p, hp, hpl⟩ := hfind
  have hall : ∀ p ∈ VALID_TRANSITIONS, ∀ x ∈ p.2, transitionsFor x ≠ none := by
    decide
  exact hall p hp x (hpl ▸ hx)

end Etude

/-- C1: `validate_transition(current, next)` returns `(true, None)` exactly when
`next` is in the adjacency set of `current` in the fixed ten-state table, in
which `completed` and `failed` have no outgoing edges and each `*_failed`
state has exactly the edges to its own `*_processing` state and to `failed`;
for every pair not in the table, and for any unrecognized current or next
status string, it returns `false` together with a non-empty reason message. -/
theorem C1_validate_transition (current next : String) :
    (Etude.validate_transition current next = (true, none) ↔
      next ∈ Etude.adjacency current) ∧
    ((Etude.validate_transition current next).1 = false →
      ∃ m, (Etude.validate_transition current next).2 = some m ∧ m ≠ "") ∧
    Etude.VALID_TRANSITIONS.length = 10 ∧
    Etude.adjacency "completed" = [] ∧
    Etude.adjacency "failed" = [] ∧
    Etude.adjacency "omr_failed" = ["omr_processing", "failed"] ∧
    Etude.adjacency "fingering_failed" = ["fingering_processing", "failed"] := by
  refine ⟨?_, ?_, by decide, by decide, by decide, by decide, by decide⟩
  · unfold Etude.validate_transition Etude.adjacency
    cases h1 : Etude.transitionsFor current with
    | none => simp [h1]
    | some l =>
      cases h2 : Etude.transitionsFor next with
      | none =>
        simp only [h1, h2, Option.getD_some]
        constructor
        · intro h; cases h
        · intro hmem
          exact absurd h2 (Etude.mem_adjacency_known current next l h1 hmem)
      | some l2 =>
        simp only [h1, h2, Option.getD_some]
        by_cases hm : next ∈ l
        · simp [hm]
        · simp [hm]
  · exact Etude.validate_transition_reason_nonempty current next

namespace Etude

/-! ## Job store status mutation (`server/app/services/job_service.py`)

The database session is modelled by passing the looked-up job row in and
returning the committed row; `datetime.utcnow()` is the parameter `now`.
A raised `ValueError` is `Except.error`; since `update_job_status` raises
before any field assignment and commits only at the end, an error result
means the job row is unchanged. -/

/-- One record of the append-only `transitions` log kept in
`job_metadata["transitions"]`.  Fields `src` and `dst` model the JSON keys
named from and to (`from` is a reserved word in Lean). -/
structure TransitionRecord where
  src : String
  dst : String
  timestamp : Nat
deriving Repr, DecidableEq

/-- The fields of a `jobs` row read or written by `JobService` status
mutation (`server/app/models/job.py`): `transitions` is
`job_metadata["transitions"]`, `none` when that key is absent. -/
structure Job where
  status : String
  error_message : Option String
  completed_at : Option Nat
  transitions : Option (List TransitionRecord)
deriving Repr, DecidableEq

/-- Embeds `JobService.update_job_status` (`job_service.py` lines 107 to 152).
`jobRow` is the result of the `get_job(job_id)` lookup.  Note the source
order: `job.status` is assigned on line 132 and `old_status = job.status` is
read only afterwards on line 141, so the appended log record reads the
already-updated status. -/
def update_job_status (now : Nat) (jobRow : Option Job)
    (status : String) (error_message : Option String) : Except String Job :=
  match jobRow with
  | none => .error "Job not found"
  | some job =>
    match validate_transition job.status status with
    | (false, error) => .error (error.getD "")
    | (true, _) =>
      let job1 := { job with status := status }
      let job2 := match error_message with
        | some m => if m = "" then job1 else { job1 with error_message := some m }
        | none => job1
      let job3 :=
        if status = "completed" then { job2 with completed_at := some now } else job2
      let ts := job3.transitions.getD []
      let old_status := job3.status
      .ok { job3 with transitions := some (ts ++ [⟨old_status, status, now⟩]) }

/-- Embeds `JobService.record_error` (`job_service.py` lines 154 to 166):
sets `error_message`, forces `status` to `failed` and sets `completed_at`,
without calling `validate_transition`. -/
def record_error (now : Nat) (jobRow : Option Job) (error_message : String) :
    Except String Job :=
  match jobRow with
  | none => .error "Job not found"
  | some job =>
    .ok { job with error_message := some error_message,
                   status := "failed",
                   completed_at := some now }

/-- Both terminal statuses have an empty adjacency set, so `validate_transition`
rejects every transition out of them. -/
theorem terminal_rejects (s next : String)
    (h : s = "completed" ∨ s = "failed") :
    (validate_transition s next).1 = false := by
  have hadj : transitionsFor s = some [] := by
    cases h with
    | inl h => rw [h]; decide
    | inr h => rw [h]; decide
  unfold validate_transition
  rw [hadj]
  cases h2 : transitionsFor next with
  | none => rfl
  | some l2 => simp

end Etude

/-- C3 counterexample: `JobService.record_error` is a JobStore operation that
mutates a job status without calling `validate_transition`: applied to a job
in the terminal status `completed` it succeeds and moves the job to `failed`,
although the state machine rejects that transition. -/
theorem C3_counterexample :
    Etude.record_error 10 (some ⟨"completed", none, some 5, some []⟩) "boom"
      = .ok ⟨"failed", some "boom", some 10, some []⟩ ∧
    (Etude.validate_transition "completed" "failed").1 = false :=
  ⟨rfl, by decide⟩

/-- C3 (amended): `JobService.update_job_status` calls `validate_transition`
first and fails with an explicit non-empty error (never a silent no-op) on an
illegal transition, leaving the job record unchanged, and in particular can
never move a job out of a terminal state; `JobService.record_error`, however,
mutates the status to `failed` with no validation at all, so it can move a
job out of `completed`. -/
theorem C3_status_mutation_validation :
    (∀ now job status em,
      (Etude.validate_transition job.status status).1 = false →
      ∃ m, Etude.update_job_status now (some job) status em = .error m ∧ m ≠ "") ∧
    (∀ now job status em j',
      Etude.update_job_status now (some job) status em = .ok j' →
      (Etude.validate_transition job.status status).1 = true) ∧
    (∀ now job status em j',
      job.status = "completed" ∨ job.status = "failed" →
      Etude.update_job_status now (some job) status em ≠ .ok j') ∧
    (∀ now job em, Etude.record_error now (some job) em =
      .ok { job with status := "failed", error_message := some em,
                     completed_at := some now }) := by
  have hfail : ∀ now (job : Etude.Job) status em,
      (Etude.validate_transition job.status status).1 = false →
      ∃ m, Etude.update_job_status now (some job) status em = .error m ∧ m ≠ "" := by
    intro now job status em h
    obtain ⟨m, hm2, hmne⟩ := Etude.validate_transition_reason_nonempty _ _ h
    have hv : Etude.validate_transition job.status status = (false, some m) :=
      Prod.ext_iff.mpr ⟨h, hm2⟩
    refine ⟨m, ?_, hmne⟩
    simp only [Etude.update_job_status, hv]
    rfl
  refine ⟨hfail, ?_, ?_, ?_⟩
  · intro now job status em j' hok
    cases hb : (Etude.validate_transition job.status status).1 with
    | false =>
      obtain ⟨m, hm, _⟩ := hfail now job status em hb
      rw [hok] at hm
      cases hm
    | true => rfl
  · intro now job status em j' hterm hok
    obtain ⟨m, hm, _⟩ := hfail now job status em
      (Etude.terminal_rejects job.status status hterm)
    rw [hok] at hm
    cases hm
  · intro now job em
    rfl

/-- C3 witness: the amended statement at concrete inputs — an illegal update
out of `completed` fails with a non-empty error and `record_error` forces a
pending job to `failed`. -/
theorem C3_witness :
    (∃ m, Etude.update_job_status 0 (some ⟨"completed", none, some 1, none⟩)
        "pending" none = .error m ∧ m ≠ "") ∧
    Etude.record_error 3 (some ⟨"pending", none, none, none⟩) "x"
      = .ok ⟨"failed", some "x", some 3, none⟩ :=
  ⟨C3_status_mutation_validation.1 0 ⟨"completed", none, some 1, none⟩
      "pending" none (by decide),
   C3_status_mutation_validation.2.2.2 3 ⟨"pending", none, none, none⟩ "x"⟩

/-- C6: refutation by evaluation — for a successful `update_job_status` call
the appended transition record carries the already-updated status in its
from field (`old_status` is read after the assignment `job.status = status`),
so from equals to; here a `pending` to `omr_processing` update logs
from = to = `omr_processing` instead of from = `pending`. -/
theorem C6_transition_log_from_equals_to :
    Etude.update_job_status 7 (some ⟨"pending", none, none, none⟩)
        "omr_processing" none
      = .ok ⟨"omr_processing", none, none,
             some [⟨"omr_processing", "omr_processing", 7⟩]⟩ ∧
    (∀ now job status em j',
      Etude.update_job_status now (some job) status em = .ok j' →
      ∃ ts, j'.transitions = some (ts ++ [⟨status, status, now⟩])) := by
  constructor
  · rfl
  · intro now job status em j' hok
    cases hv : Etude.validate_transition job.status status with
    | mk b o =>
      simp only [Etude.update_job_status, hv] at hok
      cases b with
      | false => cases hok
      | true =>
        cases hok
        cases em with
        | none =>
          by_cases hc : status = "completed"
          · exact ⟨job.transitions.getD [], by simp [hc]⟩
          · exact ⟨job.transitions.getD [], by simp [hc]⟩
        | some m =>
          by_cases hme : m = ""
          · by_cases hc : status = "completed"
            · exact ⟨job.transitions.getD [], by simp [hme, hc]⟩
            · exact ⟨job.transitions.getD [], by simp [hme, hc]⟩
          · by_cases hc : status = "completed"
            · exact ⟨job.transitions.getD [], by simp [hme, hc]⟩
            · exact ⟨job.transitions.getD [], by simp [hme, hc]⟩

/-- C7: refutation by evaluation — `update_job_status` sets `completed_at`
only when the new status is `completed` (line 135 of `job_service.py`), so a
transition to the terminal status `failed` leaves `completed_at` null,
violating the claimed iff; `record_error` and an update to `completed` do set
it. -/
theorem C7_completed_at_not_set_on_failed :
    Etude.update_job_status 9 (some ⟨"rendering_processing", none, none, some []⟩)
        "failed" (some "err")
      = .ok ⟨"failed", some "err", none, some [⟨"failed", "failed", 9⟩]⟩ ∧
    Etude.update_job_status 4 (some ⟨"rendering_processing", none, none, some []⟩)
        "completed" none
      = .ok ⟨"completed", none, some 4, some [⟨"completed", "completed", 4⟩]⟩ ∧
    Etude.record_error 9 (some ⟨"rendering_processing", none, none, some []⟩) "err"
      = .ok ⟨"failed", some "err", some 9, some []⟩ :=
  ⟨rfl, rfl, rfl⟩

namespace Etude

/-! ## Artifact store read path (`server/app/services/artifact_service.py`)
and IR load (`server/app/services/ir_service.py`)

Object storage is modelled as a function from (key, bucket) to stored bytes,
the `artifacts` table as a function from artifact id to its row, and
`hashlib.sha256(...).hexdigest()` as an explicit function parameter
`sha256_hex` standing for the fixed SHA-256 hex digest. -/

/-- The fields of an `artifacts` row used on the read paths
(`server/app/models/artifact.py`). -/
structure ArtifactRow where
  id : Nat
  artifact_type : String
  schema_version : String
  storage_path : String
  checksum : String
deriving Repr, DecidableEq

/-- Bucket selection of `artifact_service.py` lines 135 to 140, with the
bucket names from `config.py`: `pdf` artifacts live in `MINIO_BUCKET_PDFS`,
everything else in `MINIO_BUCKET_ARTIFACTS`. -/
def bucketFor (artifact_type : String) : String :=
  if artifact_type = "pdf" then "etude-pdfs" else "etude-artifacts"

/-- Embeds `ArtifactService.get_artifact` (`artifact_service.py` lines 123 to
144): look up the row, download the blob from the bucket for its type and
return the pair.  The downloaded bytes are returned exactly as received: the
source contains no checksum recomputation or comparison on this path. -/
def get_artifact (db : Nat → Option ArtifactRow)
    (download : String → String → List Nat) (artifact_id : Nat) :
    Option (ArtifactRow × List Nat) :=
  match db artifact_id with
  | none => none
  | some artifact =>
    let bucket := bucketFor artifact.artifact_type
    let data := download artifact.storage_path bucket
    some (artifact, data)

/-- Embeds `IRService.load_ir` (`ir_service.py` lines 122 to 166).
`parse` stands for `SchemaRegistry.get_schema(version).from_json` applied to
the UTF-8 decoded payload, including its possible failures. -/
def load_ir {IR : Type} (sha256_hex : List Nat → String)
    (db : Nat → Option ArtifactRow) (download : String → String → List Nat)
    (parse : String → List Nat → Except String IR) (artifact_id : Nat) :
    Except String (ArtifactRow × IR) :=
  match db artifact_id with
  | none => .error ("Artifact " ++ toString artifact_id ++ " not found")
  | some artifact =>
    let ir_bytes := download artifact.storage_path "etude-artifacts"
    let checksum := sha256_hex ir_bytes
    if checksum ≠ artifact.checksum then
      .error ("Checksum mismatch for artifact " ++ toString artifact_id)
    else
      match parse artifact.schema_version ir_bytes with
      | .error e => .error e
      | .ok ir => .ok (artifact, ir)

/-- Stand-in hash for SHA-256 in concrete storage states: all the concrete
theorems need is that the corrupted payload hashes differently from the
recorded checksum, exactly as a one-byte corruption does under SHA-256. -/
def demoHash (bs : List Nat) : String :=
  toString (bs.foldl (fun a b => a + b) 0)

/-- A stored IR artifact row whose checksum is the digest of the original
payload `[1, 2, 3]`. -/
def demoRow : ArtifactRow :=
  ⟨1, "ir_v2", "2.0.0", "jobs/9/artifacts/1.json", demoHash [1, 2, 3]⟩

/-- Artifact table holding exactly `demoRow` under id 1. -/
def demoDb : Nat → Option ArtifactRow :=
  fun i => if i = 1 then some demoRow else none

/-- Object storage after a one-byte corruption of the blob: it serves
`[1, 2, 4]` instead of the original `[1, 2, 3]`. -/
def demoCorruptDownload : String → String → List Nat := fun _ _ => [1, 2, 4]

/-- Intact object storage serving the original payload `[1, 2, 3]`. -/
def demoGoodDownload : String → String → List Nat := fun _ _ => [1, 2, 3]

end Etude

/-- C2 counterexample: with the stored blob corrupted by one byte (the
storage serves `[1, 2, 4]` where the checksum was recorded over `[1, 2, 3]`),
`ArtifactService.get_artifact` succeeds and silently returns the altered
bytes, whose digest differs from the artifact's recorded checksum — it does
not fail with a checksum-mismatch error. -/
theorem C2_counterexample :
    Etude.get_artifact Etude.demoDb Etude.demoCorruptDownload 1
      = some (Etude.demoRow, [1, 2, 4]) ∧
    Etude.demoHash [1, 2, 4] ≠ Etude.demoRow.checksum :=
  ⟨rfl, by decide⟩

/-- C2 (amended): `ArtifactService.get_artifact` downloads the blob and
returns it exactly as received, without recomputing the SHA-256 or comparing
it to the stored checksum, so a corrupted blob is returned silently; on-read
checksum verification exists only in `IRService.load_ir`. -/
theorem C2_get_artifact_no_integrity_check :
    (∀ db download id row bs,
      Etude.get_artifact db download id = some (row, bs) →
      db id = some row ∧
      bs = download row.storage_path (Etude.bucketFor row.artifact_type)) ∧
    (∀ db download id, db id = none →
      Etude.get_artifact db download id = none) := by
  constructor
  · intro db download id row bs hok
    unfold Etude.get_artifact at hok
    cases h : db id with
    | none => rw [h] at hok; cases hok
    | some a =>
      rw [h] at hok
      simp only [Option.some.injEq, Prod.mk.injEq] at hok
      obtain ⟨h1, h2⟩ := hok
      subst h1
      exact ⟨rfl, h2.symm⟩
  · intro db download id h
    simp [Etude.get_artifact, h]

/-- C2 witness: the amended statement applied to the corrupted demo storage
state. -/
theorem C2_witness :
    Etude.demoDb 1 = some Etude.demoRow ∧
    [1, 2, 4] = Etude.demoCorruptDownload Etude.demoRow.storage_path
      (Etude.bucketFor Etude.demoRow.artifact_type) :=
  C2_get_artifact_no_integrity_check.1 Etude.demoDb Etude.demoCorruptDownload 1
    Etude.demoRow [1, 2, 4] rfl

/-- C10: `IRService.load_ir` enforces integrity on the read path: it raises
for an unknown artifact id, raises a checksum-mismatch error whenever the
SHA-256 of the downloaded bytes differs from the stored checksum, and returns
an (artifact, IR) pair only when the recomputed digest equals the stored
checksum (and the payload parses). -/
theorem C10_load_ir_verifies_checksum (IR : Type)
    (sha256_hex : List Nat → String) (db : Nat → Option Etude.ArtifactRow)
    (download : String → String → List Nat)
    (parse : String → List Nat → Except String IR) (id : Nat) :
    (db id = none →
      Etude.load_ir sha256_hex db download parse id =
        .error ("Artifact " ++ toString id ++ " not found")) ∧
    (∀ row, db id = some row →
      sha256_hex (download row.storage_path "etude-artifacts") ≠ row.checksum →
      Etude.load_ir sha256_hex db download parse id =
        .error ("Checksum mismatch for artifact " ++ toString id)) ∧
    (∀ row ir, Etude.load_ir sha256_hex db download parse id = .ok (row, ir) →
      db id = some row ∧
      sha256_hex (download row.storage_path "etude-artifacts") = row.checksum ∧
      parse row.schema_version (download row.storage_path "etude-artifacts")
        = .ok ir) := by
  refine ⟨?_, ?_, ?_⟩
  · intro h
    simp [Etude.load_ir, h]
  · intro row h hne
    simp [Etude.load_ir, h, hne]
  · intro row ir hok
    unfold Etude.load_ir at hok
    cases h : db id with
    | none => rw [h] at hok; cases hok
    | some a =>
      rw [h] at hok
      by_cases he : sha256_hex (download a.storage_path "etude-artifacts")
          = a.checksum
      · simp only [he, ne_eq, not_true_eq_false, if_false, ite_false] at hok
        cases hp : parse a.schema_version
            (download a.storage_path "etude-artifacts") with
        | error e => rw [hp] at hok; simp at hok
        | ok x =>
          rw [hp] at hok
          simp only [Except.ok.injEq, Prod.mk.injEq] at hok
          obtain ⟨h1, h2⟩ := hok
          subst h1
          exact ⟨rfl, he, h2 ▸ hp⟩
      · simp [he] at hok
  
/-- C10 witness: the three conclusions at a concrete state — unknown id 2
errors, the intact payload loads, and the corrupted payload yields exactly
the checksum-mismatch error. -/
theorem C10_witness :
    Etude.load_ir Etude.demoHash Etude.demoDb Etude.demoGoodDownload
        (fun _ bs => Except.ok bs) 2
      = .error ("Artifact " ++ toString 2 ++ " not found") ∧
    (Etude.demoDb 1 = some Etude.demoRow ∧
      Etude.demoHash (Etude.demoGoodDownload Etude.demoRow.storage_path
        "etude-artifacts") = Etude.demoRow.checksum ∧
      (fun (_ : String) (bs : List Nat) => Except.ok (ε := String) bs)
        Etude.demoRow.schema_version
        (Etude.demoGoodDownload Etude.demoRow.storage_path "etude-artifacts")
        = .ok [1, 2, 3]) ∧
    Etude.load_ir Etude.demoHash Etude.demoDb Etude.demoCorruptDownload
        (fun _ bs => Except.ok bs) 1
      = .error ("Checksum mismatch for artifact " ++ toString 1) :=
  ⟨(C10_load_ir_verifies_checksum (List Nat) Etude.demoHash Etude.demoDb
      Etude.demoGoodDownload (fun _ bs => Except.ok bs) 2).1 (by decide),
   (C10_load_ir_verifies_checksum (List Nat) Etude.demoHash Etude.demoDb
      Etude.demoGoodDownload (fun _ bs => Except.ok bs) 1).2.2
      Etude.demoRow [1, 2, 3] rfl,
   (C10_load_ir_verifies_checksum (List Nat) Etude.demoHash Etude.demoDb
      Etude.demoCorruptDownload (fun _ bs => Except.ok bs) 1).2.1
      Etude.demoRow (by decide) (by decide)⟩

namespace Etude

/-! ## Downstream stage call retry policy

`omr_client.py` and `fingering_client.py` decorate their calls with tenacity
`retry(retry=retry_if_exception_type((httpx.TimeoutException,
httpx.NetworkError)), stop=stop_after_attempt(3), wait=wait_exponential(...))`
(lines 48 to 52 of each file), while the rendering task issues its single
`POST /render` with no retry decorator (`rendering_tasks.py` lines 107 to
142): a transport exception there is sent straight to the handler boundary.
A call schedule is modelled as a function from attempt index to outcome;
backoff waits do not affect results.  On exhaustion tenacity raises a
`RetryError` carrying the last attempt; the model reports that last
transport error as the propagated outcome. -/

/-- Outcome of one HTTP attempt: `transportError` covers
`httpx.TimeoutException` and `httpx.NetworkError` (the retryable types);
`httpError` is the `HTTPStatusError` raised by `raise_for_status` for a 4xx
or 5xx response with that status code. -/
inductive CallOutcome where
  | success : CallOutcome
  | transportError : String → CallOutcome
  | httpError : Nat → CallOutcome
deriving Repr, DecidableEq

/-- Marks the outcomes matched by
`retry_if_exception_type((httpx.TimeoutException, httpx.NetworkError))`. -/
def CallOutcome.isTransport : CallOutcome → Bool
  | .transportError _ => true
  | _ => false

/-- The tenacity loop specialized to its configuration in the source,
`stop_after_attempt(3)`: a transport outcome is retried, any other outcome is
final, and the third attempt's outcome is final either way.  Returns the
final outcome and the number of attempts performed. -/
def retry3 (seq : Nat → CallOutcome) : CallOutcome × Nat :=
  match seq 0 with
  | .transportError _ =>
    match seq 1 with
    | .transportError _ => (seq 2, 3)
    | o => (o, 2)
  | o => (o, 1)

/-- Embeds the retry behaviour of `OMRClient.process_pdf`
(`omr_client.py` lines 48 to 52). -/
def process_pdf (seq : Nat → CallOutcome) : CallOutcome × Nat := retry3 seq

/-- Embeds the retry behaviour of `FingeringClient.infer_fingering`
(`fingering_client.py` lines 48 to 52). -/
def infer_fingering (seq : Nat → CallOutcome) : CallOutcome × Nat := retry3 seq

/-- Embeds the renderer `POST /render` call of `rendering_tasks.py`
lines 125 to 142: one attempt, every exception re-raised immediately. -/
def render_post (seq : Nat → CallOutcome) : CallOutcome × Nat := (seq 0, 1)

/-- A schedule whose first attempt times out and whose later attempts
succeed. -/
def transientFailureSeq : Nat → CallOutcome :=
  fun i => if i = 0 then .transportError "timeout" else .success

end Etude

/-- C8 counterexample: on a schedule where the first attempt is a transport
timeout and a second attempt would succeed, the renderer render call fails
with the transport error after exactly one attempt, while the claimed
3-attempt policy (the one the OMR and fingering clients actually use) would
succeed on attempt two — so renderer transport failures are not retried. -/
theorem C8_counterexample :
    Etude.render_post Etude.transientFailureSeq
      = (.transportError "timeout", 1) ∧
    Etude.retry3 Etude.transientFailureSeq = (.success, 2) :=
  ⟨rfl, rfl⟩

/-- C8 (amended): the OMR process and fingering infer calls retry transport
failures up to 3 total attempts, surface HTTP 4xx/5xx errors on the first
occurrence without retrying, and propagate the final transport error on
exhaustion; the renderer render call, however, is issued exactly once, so a
transport failure there surfaces immediately (only the renderer health check
is retried). -/
theorem C8_retry_policy :
    (∀ seq, Etude.process_pdf seq = Etude.retry3 seq ∧
      Etude.infer_fingering seq = Etude.retry3 seq) ∧
    (∀ seq c, seq 0 = .httpError c → Etude.retry3 seq = (.httpError c, 1)) ∧
    (∀ seq, seq 0 = .success → Etude.retry3 seq = (.success, 1)) ∧
    (∀ seq e o, seq 0 = .transportError e → seq 1 = o →
      o.isTransport = false → Etude.retry3 seq = (o, 2)) ∧
    (∀ seq e0 e1 e2, seq 0 = .transportError e0 → seq 1 = .transportError e1 →
      seq 2 = .transportError e2 →
      Etude.retry3 seq = (.transportError e2, 3)) ∧
    (∀ seq, (Etude.retry3 seq).2 ≤ 3) ∧
    (∀ seq, Etude.render_post seq = (seq 0, 1)) := by
  refine ⟨fun seq => ⟨rfl, rfl⟩, ?_, ?_, ?_, ?_, ?_, fun seq => rfl⟩
  · intro seq c h
    simp [Etude.retry3, h]
  · intro seq h
    simp [Etude.retry3, h]
  · intro seq e o h0 h1 ho
    cases o with
    | success => simp [Etude.retry3, h0, h1]
    | transportError e2 => simp [Etude.CallOutcome.isTransport] at ho
    | httpError c => simp [Etude.retry3, h0, h1]
  · intro seq e0 e1 e2 h0 h1 h2
    simp [Etude.retry3, h0, h1, h2]
  · intro seq
    unfold Etude.retry3
    cases h0 : seq 0 <;> simp
    cases h1 : seq 1 <;> simp
  
/-- C8 witness: the amended statement at concrete schedules — a 404 on the
first attempt surfaces at once, three timeouts exhaust the retries with the
last transport error, and the renderer call returns its single attempt. -/
theorem C8_witness :
    Etude.retry3 (fun _ => .httpError 404) = (.httpError 404, 1) ∧
    Etude.retry3 (fun i => .transportError (toString i))
      = (.transportError "2", 3) ∧
    Etude.render_post (fun _ => .httpError 500) = ((fun _ => .httpError 500) 0, 1) :=
  ⟨C8_retry_policy.2.1 (fun _ => .httpError 404) 404 rfl,
   C8_retry_policy.2.2.2.2.1 (fun i => .transportError (toString i))
     "0" "1" "2" rfl rfl rfl,
   C8_retry_policy.2.2.2.2.2.2 (fun _ => .httpError 500)⟩

namespace Etude

/-! ## Duration quantization
(`services/renderer/app/resolvers/quantization.py`)

Python float arithmetic is modelled with exact rationals; every constant
involved (the ladder entries, 0.0625, 0.05, 1.48, 1.30) is a short decimal
or binary fraction for which the comparisons performed agree with the float
code.  CPython `round` rounds half to even. -/

/-- The `standard_durations` ladder of `QuantizationResolver.__init__`
(lines 27 to 39): whole, dotted half, half, dotted quarter, quarter, dotted
eighth, eighth, dotted sixteenth, sixteenth, thirty-second, sixty-fourth,
in beats with quarter = 1. -/
def standard_durations : List ℚ :=
  [4, 3, 2, 3/2, 1, 3/4, 1/2, 3/8, 1/4, 1/8, 1/16]

/-- CPython `round` to an integer: nearest, ties to even. -/
def pythonRound (q : ℚ) : ℤ :=
  let f := ⌊q⌋
  let r := q - f
  if r < 1/2 then f
  else if 1/2 < r then f + 1
  else if 2 ∣ f then f else f + 1

/-- Embeds `_quantize_value` (lines 89 to 96): snap to the grid whose step
is `self.min_duration` (`grid_size`), via `round(value / grid_size) *
grid_size`. -/
def quantize_value (minDur v : ℚ) : ℚ :=
  (pythonRound (v / minDur) : ℚ) * minDur

/-- Python `min(xs, key=lambda x: abs(x - d))`: the first element of `xs`
with minimal distance to `d` (0 for the empty list, which is never hit: the
ladder is a non-empty constant). -/
def closestTo (d : ℚ) : List ℚ → ℚ
  | [] => 0
  | x :: xs => xs.foldl (fun best y => if |y - d| < |best - d| then y else best) x

/-- Embeds `_quantize_duration` (lines 98 to 113), with the `tolerance` and
`min_duration` fields supplied by `__init__` as parameters (defaults 0.05
and 0.0625). -/
def quantize_duration (tolerance minDur d : ℚ) : ℚ :=
  if d < minDur then minDur
  else if |closestTo d standard_durations - d| ≤ tolerance then
    closestTo d standard_durations
  else quantize_value minDur d

/-- The running minimum of the `closestTo` fold is one of the candidates. -/
theorem foldl_closest_mem (d : ℚ) (xs : List ℚ) (x : ℚ) :
    xs.foldl (fun best y => if |y - d| < |best - d| then y else best) x
      ∈ x :: xs := by
  induction xs generalizing x with
  | nil => simp
  | cons y ys ih =>
    simp only [List.foldl_cons]
    by_cases h : |y - d| < |x - d|
    · rw [if_pos h]
      rcases List.mem_cons.mp (ih y) with h1 | h1
      · rw [h1]; exact List.mem_cons_of_mem _ (List.mem_cons_self _ _)
      · exact List.mem_cons_of_mem _ (List.mem_cons_of_mem _ h1)
    · rw [if_neg h]
      rcases List.mem_cons.mp (ih x) with h1 | h1
      · rw [h1]; exact List.mem_cons_self _ _
      · exact List.mem_cons_of_mem _ (List.mem_cons_of_mem _ h1)

/-- The running minimum of the `closestTo` fold is at least as close to `d`
as the seed and as every candidate in the list. -/
theorem foldl_closest_le (d : ℚ) (xs : List ℚ) (x : ℚ) :
    |xs.foldl (fun best y => if |y - d| < |best - d| then y else best) x - d|
        ≤ |x - d| ∧
    ∀ s ∈ xs,
      |xs.foldl (fun best y => if |y - d| < |best - d| then y else best) x - d|
        ≤ |s - d| := by
  induction xs generalizing x with
  | nil => exact ⟨le_refl _, by simp⟩
  | cons y ys ih =>
    simp only [List.foldl_cons]
    by_cases h : |y - d| < |x - d|
    · rw [if_pos h]
      obtain ⟨h1, h2⟩ := ih y
      refine ⟨h1.trans (le_of_lt h), ?_⟩
      intro s hs
      rcases List.mem_cons.mp hs with rfl | hs'
      · exact h1
      · exact h2 s hs'
    · rw [if_neg h]
      obtain ⟨h1, h2⟩ := ih x
      refine ⟨h1, ?_⟩
      intro s hs
      rcases List.mem_cons.mp hs with rfl | hs'
      · exact h1.trans (le_of_not_lt h)
      · exact h2 s hs'

/-- On a non-empty candidate list, `closestTo` returns a member of the list
minimizing the distance to `d`. -/
theorem closestTo_spec (d x : ℚ) (xs : List ℚ) :
    closestTo d (x :: xs) ∈ x :: xs ∧
    ∀ s ∈ x :: xs, |closestTo d (x :: xs) - d| ≤ |s - d| := by
  unfold closestTo
  refine ⟨foldl_closest_mem d xs x, ?_⟩
  intro s hs
  obtain ⟨h1, h2⟩ := foldl_closest_le d xs x
  rcases List.mem_cons.mp hs with rfl | hs'
  · exact h1
  · exact h2 s hs'

end Etude

/-- C9: for any duration at least the minimum duration 0.0625, the quantizer
returns a standard note value minimizing the distance to the input whenever
some standard value lies within the tolerance, and otherwise a grid multiple
of the minimum duration; in particular, with tolerance 0.05, duration 1.48
snaps to 1.5 (dotted quarter) and duration 1.30 snaps to the grid multiple
21/16 = 1.3125, which is not a named standard value. -/
theorem C9_quantize_duration (tolerance d : ℚ)
    (hd : (1 : ℚ)/16 ≤ d) :
    ((∃ s ∈ Etude.standard_durations, |s - d| ≤ tolerance) →
      Etude.quantize_duration tolerance (1/16) d ∈ Etude.standard_durations ∧
      ∀ s ∈ Etude.standard_durations,
        |Etude.quantize_duration tolerance (1/16) d - d| ≤ |s - d|) ∧
    ((∀ s ∈ Etude.standard_durations, tolerance < |s - d|) →
      ∃ k : ℤ, Etude.quantize_duration tolerance (1/16) d = k * (1/16)) ∧
    Etude.quantize_duration (1/20) (1/16) (37/25) = 3/2 ∧
    Etude.quantize_duration (1/20) (1/16) (13/10) = 21/16 ∧
    (∃ k : ℤ, (21/16 : ℚ) = k * (1/16)) ∧
    (21/16 : ℚ) ∉ Etude.standard_durations := by
  have hnl : ¬ (d < 1/16) := not_lt.mpr hd
  have hspec := Etude.closestTo_spec d 4 [3, 2, 3/2, 1, 3/4, 1/2, 3/8, 1/4, 1/8, 1/16]
  have hmem : Etude.closestTo d Etude.standard_durations ∈ Etude.standard_durations :=
    hspec.1
  have hmin : ∀ s ∈ Etude.standard_durations,
      |Etude.closestTo d Etude.standard_durations - d| ≤ |s - d| := hspec.2
  refine ⟨?_, ?_, ?_, ?_, ⟨21, by norm_num⟩, ?_⟩
  case refine_3 =>
    norm_num [Etude.quantize_duration, Etude.closestTo, Etude.standard_durations,
      List.foldl, abs, max_def]
  case refine_4 =>
    norm_num [Etude.quantize_duration, Etude.closestTo, Etude.standard_durations,
      List.foldl, abs, max_def, Etude.quantize_value, Etude.pythonRound,
      Int.floor_eq_iff]
  case refine_5 =>
    norm_num [Etude.standard_durations]
  · rintro ⟨s, hs, hstol⟩
    have htol : |Etude.closestTo d Etude.standard_durations - d| ≤ tolerance :=
      (hmin s hs).trans hstol
    unfold Etude.quantize_duration
    rw [if_neg hnl, if_pos htol]
    exact ⟨hmem, hmin⟩
  · intro hall
    have hgt : ¬ (|Etude.closestTo d Etude.standard_durations - d| ≤ tolerance) :=
      not_le.mpr (hall _ hmem)
    unfold Etude.quantize_duration
    rw [if_neg hnl, if_neg hgt]
    exact ⟨Etude.pythonRound (d / (1/16)), rfl⟩

/-- C9 witness: the statement at the concrete inputs of the claim — 1.48
lands on a closest standard value and 1.30 lands on the minimum-duration
grid. -/
theorem C9_witness :
    (Etude.quantize_duration (1/20) (1/16) (37/25) ∈ Etude.standard_durations ∧
      ∀ s ∈ Etude.standard_durations,
        |Etude.quantize_duration (1/20) (1/16) (37/25) - 37/25| ≤ |s - 37/25|) ∧
    (∃ k : ℤ, Etude.quantize_duration (1/20) (1/16) (13/10) = k * (1/16)) :=
  ⟨(C9_quantize_duration (1/20) (37/25) (by norm_num)).1
      ⟨3/2, by norm_num [Etude.standard_durations],
        by norm_num [abs, max_def]⟩,
   (C9_quantize_duration (1/20) (13/10) (by norm_num)).2.1
      (by norm_num [Etude.standard_durations, abs, max_def])⟩

namespace Etude

/-! ## Rendering stage handler (`server/app/tasks/rendering_tasks.py`)

`process_rendering_async` is modelled from the point where the renderer
response JSON has been parsed; the earlier segments (the IR v2 load and the
HTTP round trip) supply its inputs.  Each successful
`ArtifactService.store_artifact` call commits separately, so the model
returns the list of artifacts stored before any exception together with the
exception, if one was raised. -/

/-- JSON values at the granularity the handler inspects them: strings,
arrays of strings (the svg and png page lists) and nested objects (the
formats map). -/
inductive JVal where
  | jstr : String → JVal
  | jarr : List String → JVal
  | jobj : List (String × JVal) → JVal

/-- Python dict lookup on a parsed JSON object. -/
def lookupJ (obj : List (String × JVal)) (k : String) : Option JVal :=
  (obj.find? (fun p => p.1 == k)).map Prod.snd

/-- Attribute access on the `ArtifactType` enum class
(`server/app/models/artifact.py` lines 15 to 23): the class defines exactly
the members PDF, IR_V1, IR_V2, MUSICXML, MIDI and SVG, so accessing any
other attribute (in particular `ArtifactType.PNG` on line 275 of
`rendering_tasks.py`) raises `AttributeError`, modelled as `none`. -/
def artifactTypeValue : String → Option String
  | "PDF" => some "pdf"
  | "IR_V1" => some "ir_v1"
  | "IR_V2" => some "ir_v2"
  | "MUSICXML" => some "musicxml"
  | "MIDI" => some "midi"
  | "SVG" => some "svg"
  | _ => none

/-- An artifact stored through `ArtifactService.store_artifact` by the
handler: its type string, payload bytes and parent artifact id. -/
structure StoredArtifact where
  artifact_type : String
  data : List Nat
  parent_artifact_id : Nat
deriving Repr, DecidableEq

/-- Python `str.encode("utf-8")`, at the granularity the claims need: an
injective map from strings to byte lists. -/
def strBytes (s : String) : List Nat := s.data.map Char.toNat

/-- Embeds the response validation of `process_rendering_async` (lines 185
to 217): the formats key must exist and hold a dict, the requested
non-optional formats musicxml, midi and svg must all be present (png is
optional, lines 199 to 201), and svg must be a non-empty list.  Returns the
formats dict, or the `ValueError` message. -/
def validateRenderResponse (render_response : List (String × JVal)) :
    Except String (List (String × JVal)) :=
  match lookupJ render_response "formats" with
  | none => .error "Renderer response missing formats field"
  | some (JVal.jobj formats) =>
    if ["musicxml", "midi", "svg"].filter
        (fun fmt => (lookupJ formats fmt).isNone) ≠ [] then
      .error ("Renderer response missing requested formats: "
        ++ String.intercalate ", " (["musicxml", "midi", "svg"].filter
              (fun fmt => (lookupJ formats fmt).isNone))
        ++ ". Received: " ++ String.intercalate ", " (formats.map Prod.fst))
    else
      match lookupJ formats "svg" with
      | some (JVal.jarr pages) =>
        if pages = [] then .error "Renderer response svg list is empty"
        else .ok formats
      | some _ => .error "Renderer response svg must be a list"
      | none => .ok formats
  | some _ => .error "Renderer response formats must be a dict"

/-- The per-page store loop for svg (lines 248 to 265) and png (lines 267 to
286): one artifact per page, looking up the enum attribute named `attr` for
each `store_artifact` call; an `AttributeError` aborts the loop before the
page is stored. -/
def storePages (attr : String) (irId : Nat) (acc : List StoredArtifact) :
    List String → List StoredArtifact × Option String
  | [] => (acc, none)
  | page :: rest =>
    match artifactTypeValue attr with
    | none => (acc, some ("AttributeError: type object ArtifactType has no attribute " ++ attr))
    | some t => storePages attr irId (acc ++ [⟨t, strBytes page, irId⟩]) rest

/-- Embeds the artifact-storing section of `process_rendering_async` (lines
219 to 286) over a validated formats dict: musicxml, then midi (base64
decoded via `b64decode`, standing for `base64.b64decode` with its possible
failure), then the svg pages, then the png pages.  A non-string musicxml or
midi value raises in Python (`.encode` / `b64decode` on a non-string);
iterating a png string value yields its characters. -/
def storeRenderedArtifacts (b64decode : String → Except String (List Nat))
    (irId : Nat) (formats : List (String × JVal)) :
    List StoredArtifact × Option String :=
  let step1 : List StoredArtifact × Option String :=
    match lookupJ formats "musicxml" with
    | none => ([], none)
    | some (JVal.jstr s) =>
      match artifactTypeValue "MUSICXML" with
      | none => ([], some "AttributeError: type object ArtifactType has no attribute MUSICXML")
      | some t => ([⟨t, strBytes s, irId⟩], none)
    | some _ => ([], some "AttributeError: value has no attribute encode")
  match step1 with
  | (acc, some e) => (acc, some e)
  | (acc, none) =>
    let step2 : List StoredArtifact × Option String :=
      match lookupJ formats "midi" with
      | none => (acc, none)
      | some (JVal.jstr s) =>
        match b64decode s with
        | .error e => (acc, some e)
        | .ok bytes =>
          match artifactTypeValue "MIDI" with
          | none => (acc, some "AttributeError: type object ArtifactType has no attribute MIDI")
          | some t => (acc ++ [⟨t, bytes, irId⟩], none)
      | some _ => (acc, some "TypeError: argument should be a bytes-like object or ASCII string")
    match step2 with
    | (acc2, some e) => (acc2, some e)
    | (acc2, none) =>
      let step3 : List StoredArtifact × Option String :=
        match lookupJ formats "svg" with
        | none => (acc2, none)
        | some (JVal.jarr pages) => storePages "SVG" irId acc2 pages
        | some _ => (acc2, some "TypeError: svg value is not a list of pages")
      match step3 with
      | (acc3, some e) => (acc3, some e)
      | (acc3, none) =>
        match lookupJ formats "png" with
        | none => (acc3, none)
        | some (JVal.jarr pages) => storePages "PNG" irId acc3 pages
        | some (JVal.jstr s) =>
          storePages "PNG" irId acc3 (s.data.map (fun c => String.mk [c]))
        | some _ => (acc3, some "TypeError: png value is not iterable pages")

/-- Embeds the exception handler of `process_rendering_async` (lines 302 to
345): truncate the message to 1000 characters and update the job to FAILED;
the up-to-3 retries of that DB update behave identically in this
deterministic model, so a failing status update leaves the row as it was,
the critical log being the only effect. -/
def renderFailPath (now : Nat) (jobRow : Option Job) (error_message : String) :
    Option Job :=
  let truncated_error :=
    if error_message.length > 1000 then error_message.take 1000 else error_message
  match update_job_status now jobRow "failed" (some truncated_error) with
  | .ok jf => some jf
  | .error _ => jobRow

/-- Embeds `process_rendering_async` (`rendering_tasks.py` lines 35 to 345)
from the point the renderer response has been parsed: the status update to
`rendering_processing` (line 50), response validation, artifact stores, the
status update to `completed` (line 294), and the exception handler.  Returns
the final job row, the artifacts stored by this run, and whether the run
succeeded. -/
def process_rendering_async (b64decode : String → Except String (List Nat))
    (now : Nat) (jobRow : Option Job) (ir_v2_artifact_id : Nat)
    (render_response : List (String × JVal)) :
    Option Job × List StoredArtifact × Bool :=
  match update_job_status now jobRow "rendering_processing" none with
  | .error e => (renderFailPath now jobRow e, [], false)
  | .ok j1 =>
    match validateRenderResponse render_response with
    | .error e => (renderFailPath now (some j1) e, [], false)
    | .ok formats =>
      match storeRenderedArtifacts b64decode ir_v2_artifact_id formats with
      | (arts, some e) => (renderFailPath now (some j1) e, arts, false)
      | (arts, none) =>
        match update_job_status now (some j1) "completed" none with
        | .ok j2 => (some j2, arts, true)
        | .error e => (renderFailPath now (some j1) e, arts, false)

end Etude

namespace Etude

/-- A string of positive length is not the empty string. -/
theorem ne_empty_of_length_pos (s : String) (h : 0 < s.length) : s ≠ "" := by
  intro hc
  rw [hc] at h
  exact absurd h (by decide)

/-- Evaluation of a legal `update_job_status` call with no error message and
a non-terminal-setting target status. -/
theorem update_job_status_ok (now : Nat) (job : Job) (status : String)
    (h : validate_transition job.status status = (true, none))
    (hs : status ≠ "completed") :
    update_job_status now (some job) status none =
      .ok { job with
            status := status,
            transitions := some (job.transitions.getD []
              ++ [⟨status, status, now⟩]) } := by
  simp only [update_job_status, h]
  rw [if_neg hs]

/-- Evaluation of a legal `update_job_status` call carrying a non-empty
error message, targeting a status other than `completed`. -/
theorem update_job_status_ok_err (now : Nat) (job : Job) (status m : String)
    (h : validate_transition job.status status = (true, none))
    (hs : status ≠ "completed") (hm : m ≠ "") :
    update_job_status now (some job) status (some m) =
      .ok { job with
            status := status,
            error_message := some m,
            transitions := some (job.transitions.getD []
              ++ [⟨status, status, now⟩]) } := by
  simp only [update_job_status, h]
  rw [if_neg hm, if_neg hs]

/-- Evaluation of a legal `update_job_status` call to `completed`: this is
the one branch that sets `completed_at`. -/
theorem update_job_status_ok_completed (now : Nat) (job : Job)
    (h : validate_transition job.status "completed" = (true, none)) :
    update_job_status now (some job) "completed" none =
      .ok { job with
            status := "completed",
            completed_at := some now,
            transitions := some (job.transitions.getD []
              ++ [⟨"completed", "completed", now⟩]) } := by
  simp only [update_job_status, h]
  simp

/-- The exception handler moves a job that admits the `failed` transition to
`failed` and persists a non-empty (possibly truncated) error message. -/
theorem renderFailPath_ok (now : Nat) (job : Job) (m : String)
    (h : validate_transition job.status "failed" = (true, none))
    (hm : m ≠ "") :
    ∃ jf, renderFailPath now (some job) m = some jf ∧
      jf.status = "failed" ∧ ∃ e, jf.error_message = some e ∧ e ≠ "" := by
  simp only [renderFailPath]
  by_cases hl : m.length > 1000
  · rw [if_pos hl]
    have hlen : (m.take 1000).length = min 1000 m.length := by
      rw [String.take_eq]
      exact List.length_take 1000 m.1
    have ht : m.take 1000 ≠ "" := by
      apply ne_empty_of_length_pos
      omega
    rw [update_job_status_ok_err now job "failed" (m.take 1000) h (by decide) ht]
    exact ⟨_, rfl, rfl, _, rfl, ht⟩
  · rw [if_neg hl]
    rw [update_job_status_ok_err now job "failed" m h (by decide) hm]
    exact ⟨_, rfl, rfl, _, rfl, hm⟩

/-- The svg page loop stores one `svg` artifact per page, in order. -/
theorem storePages_svg (irId : Nat) (acc : List StoredArtifact)
    (pages : List String) :
    storePages "SVG" irId acc pages =
      (acc ++ pages.map (fun p => ⟨"svg", strBytes p, irId⟩), none) := by
  induction pages generalizing acc with
  | nil => simp [storePages]
  | cons p ps ih =>
    have ha : artifactTypeValue "SVG" = some "svg" := rfl
    simp only [storePages, ha, ih, List.map_cons, List.append_assoc,
      List.singleton_append]

/-- The png page loop aborts with `AttributeError` on its first iteration:
`ArtifactType` has no `PNG` member. -/
theorem storePages_png (irId : Nat) (acc : List StoredArtifact) (p : String)
    (ps : List String) :
    storePages "PNG" irId acc (p :: ps) =
      (acc, some ("AttributeError: type object ArtifactType has no attribute "
        ++ "PNG")) := by
  have ha : artifactTypeValue "PNG" = none := rfl
  simp only [storePages, ha]

end Etude

/-- C4: if the renderer response formats map is missing any requested
non-optional format key (musicxml, midi or svg), the rendering handler
raises a validation error before storing any output artifact and the job
ends in status failed with a non-empty error message and zero stored
artifacts for the run; png is optional and its absence alone does not fail
the stage, which still completes with the musicxml, midi and svg
artifacts stored. -/
theorem C4_missing_format_all_or_nothing :
    (∀ (b64 : String → Except String (List Nat)) (now : Nat) (job : Etude.Job)
        (irId : Nat) (resp fmts : List (String × Etude.JVal)),
      job.status = "fingering_completed" →
      Etude.lookupJ resp "formats" = some (Etude.JVal.jobj fmts) →
      (Etude.lookupJ fmts "musicxml" = none ∨ Etude.lookupJ fmts "midi" = none ∨
        Etude.lookupJ fmts "svg" = none) →
      ∃ jf, Etude.process_rendering_async b64 now (some job) irId resp
          = (some jf, [], false) ∧
        jf.status = "failed" ∧ ∃ e, jf.error_message = some e ∧ e ≠ "") ∧
    (∀ (b64 : String → Except String (List Nat)) (now : Nat) (job : Etude.Job)
        (irId : Nat) (resp fmts : List (String × Etude.JVal))
        (x mid : String) (dbytes : List Nat) (pages : List String),
      job.status = "fingering_completed" →
      Etude.lookupJ resp "formats" = some (Etude.JVal.jobj fmts) →
      Etude.lookupJ fmts "musicxml" = some (Etude.JVal.jstr x) →
      Etude.lookupJ fmts "midi" = some (Etude.JVal.jstr mid) →
      b64 mid = .ok dbytes →
      Etude.lookupJ fmts "svg" = some (Etude.JVal.jarr pages) →
      pages ≠ [] →
      Etude.lookupJ fmts "png" = none →
      ∃ j2, Etude.process_rendering_async b64 now (some job) irId resp
          = (some j2,
             ⟨"musicxml", Etude.strBytes x, irId⟩ :: ⟨"midi", dbytes, irId⟩ ::
               pages.map (fun p => ⟨"svg", Etude.strBytes p, irId⟩),
             true) ∧
        j2.status = "completed") := by
  constructor
  · intro b64 now job irId resp fmts hst hresp hmiss
    have hv1 : Etude.validate_transition job.status "rendering_processing"
        = (true, none) := by
      rw [hst]; rfl
    have hup := Etude.update_job_status_ok now job "rendering_processing" hv1
      (by decide)
    have hne : (["musicxml", "midi", "svg"].filter
        (fun fmt => (Etude.lookupJ fmts fmt).isNone)) ≠ [] := by
      rcases hmiss with h | h | h
      · intro hc
        have hmem : "musicxml" ∈ (["musicxml", "midi", "svg"].filter
            (fun fmt => (Etude.lookupJ fmts fmt).isNone)) :=
          List.mem_filter.mpr ⟨by simp, by rw [h]; rfl⟩
        rw [hc] at hmem
        exact List.not_mem_nil _ hmem
      · intro hc
        have hmem : "midi" ∈ (["musicxml", "midi", "svg"].filter
            (fun fmt => (Etude.lookupJ fmts fmt).isNone)) :=
          List.mem_filter.mpr ⟨by simp, by rw [h]; rfl⟩
        rw [hc] at hmem
        exact List.not_mem_nil _ hmem
      · intro hc
        have hmem : "svg" ∈ (["musicxml", "midi", "svg"].filter
            (fun fmt => (Etude.lookupJ fmts fmt).isNone)) :=
          List.mem_filter.mpr ⟨by simp, by rw [h]; rfl⟩
        rw [hc] at hmem
        exact List.not_mem_nil _ hmem
    have hvale : Etude.validateRenderResponse resp = .error
        ("Renderer response missing requested formats: "
          ++ String.intercalate ", " (["musicxml", "midi", "svg"].filter
                (fun fmt => (Etude.lookupJ fmts fmt).isNone))
          ++ ". Received: "
          ++ String.intercalate ", " (fmts.map Prod.fst)) := by
      simp only [Etude.validateRenderResponse, hresp]
      rw [if_pos hne]
    have hmsgne : ("Renderer response missing requested formats: "
        ++ String.intercalate ", " (["musicxml", "midi", "svg"].filter
              (fun fmt => (Etude.lookupJ fmts fmt).isNone))
        ++ ". Received: "
        ++ String.intercalate ", " (fmts.map Prod.fst)) ≠ "" := by
      apply Etude.ne_empty_of_length_pos
      rw [String.length_append, String.length_append, String.length_append]
      have hlit : 0 < "Renderer response missing requested formats: ".length := by
        decide
      omega
    have hrun : Etude.process_rendering_async b64 now (some job) irId resp
        = (Etude.renderFailPath now
            (some { job with
              status := "rendering_processing",
              transitions := some (job.transitions.getD []
                ++ [⟨"rendering_processing", "rendering_processing", now⟩]) })
            ("Renderer response missing requested formats: "
              ++ String.intercalate ", " (["musicxml", "midi", "svg"].filter
                    (fun fmt => (Etude.lookupJ fmts fmt).isNone))
              ++ ". Received: "
              ++ String.intercalate ", " (fmts.map Prod.fst)), [], false) := by
      simp only [Etude.process_rendering_async, hup, hvale]
    obtain ⟨jf, hjf, hstf, e, he, hene⟩ :=
      Etude.renderFailPath_ok now
        { job with
          status := "rendering_processing",
          transitions := some (job.transitions.getD []
            ++ [⟨"rendering_processing", "rendering_processing", now⟩]) }
        ("Renderer response missing requested formats: "
          ++ String.intercalate ", " (["musicxml", "midi", "svg"].filter
                (fun fmt => (Etude.lookupJ fmts fmt).isNone))
          ++ ". Received: "
          ++ String.intercalate ", " (fmts.map Prod.fst)) (by rfl) hmsgne
    exact ⟨jf, by rw [hrun, hjf], hstf, e, he, hene⟩
  · intro b64 now job irId resp fmts x mid dbytes pages hst hresp hmx hmd hb64
      hsv hpages hpng
    have hv1 : Etude.validate_transition job.status "rendering_processing"
        = (true, none) := by
      rw [hst]; rfl
    have hup := Etude.update_job_status_ok now job "rendering_processing" hv1
      (by decide)
    have hfil : (["musicxml", "midi", "svg"].filter
        (fun fmt => (Etude.lookupJ fmts fmt).isNone)) = [] := by
      simp [List.filter, hmx, hmd, hsv]
    have hval : Etude.validateRenderResponse resp = .ok fmts := by
      simp only [Etude.validateRenderResponse, hresp, hfil, hsv]
      rw [if_neg (by simp : ¬ (([] : List String) ≠ []))]
      rw [if_neg hpages]
    have hstore : Etude.storeRenderedArtifacts b64 irId fmts
        = (⟨"musicxml", Etude.strBytes x, irId⟩ :: ⟨"midi", dbytes, irId⟩ ::
            pages.map (fun p => ⟨"svg", Etude.strBytes p, irId⟩), none) := by
      have hM : Etude.artifactTypeValue "MUSICXML" = some "musicxml" := rfl
      have hD : Etude.artifactTypeValue "MIDI" = some "midi" := rfl
      simp only [Etude.storeRenderedArtifacts, hmx, hmd, hb64, hsv, hpng,
        hM, hD, Etude.storePages_svg]
      simp
    have hv2 : Etude.validate_transition
        ({ job with
            status := "rendering_processing",
            transitions := some (job.transitions.getD []
              ++ [⟨"rendering_processing", "rendering_processing", now⟩]) }
          : Etude.Job).status "completed" = (true, none) := by rfl
    have hup2 := Etude.update_job_status_ok_completed now
      { job with
        status := "rendering_processing",
        transitions := some (job.transitions.getD []
          ++ [⟨"rendering_processing", "rendering_processing", now⟩]) } hv2
    refine ⟨{ job with
        status := "completed",
        completed_at := some now,
        transitions := some ((job.transitions.getD []
          ++ [⟨"rendering_processing", "rendering_processing", now⟩])
          ++ [⟨"completed", "completed", now⟩]) }, ?_, rfl⟩
    simp only [Etude.process_rendering_async, hup, hval, hstore, hup2]
    rfl

/-- C4 witness: the statement at concrete inputs — a response missing midi
fails the job with no stored artifacts, and a response with all three
required formats and no png completes the job. -/
theorem C4_witness :
    (∃ jf, Etude.process_rendering_async (fun _ => .ok [7]) 3
        (some ⟨"fingering_completed", none, none, none⟩) 42
        [("formats", Etude.JVal.jobj
            [("musicxml", Etude.JVal.jstr "<score/>"),
             ("svg", Etude.JVal.jarr ["<svg/>"])])]
          = (some jf, [], false) ∧
      jf.status = "failed" ∧ ∃ e, jf.error_message = some e ∧ e ≠ "") ∧
    (∃ j2, Etude.process_rendering_async (fun _ => .ok [7]) 3
        (some ⟨"fingering_completed", none, none, none⟩) 42
        [("formats", Etude.JVal.jobj
            [("musicxml", Etude.JVal.jstr "<score/>"),
             ("midi", Etude.JVal.jstr "TVRoZA=="),
             ("svg", Etude.JVal.jarr ["<svg/>"])])]
          = (some j2,
             ⟨"musicxml", Etude.strBytes "<score/>", 42⟩ ::
               ⟨"midi", [7], 42⟩ ::
               ["<svg/>"].map (fun p => ⟨"svg", Etude.strBytes p, 42⟩),
             true) ∧
      j2.status = "completed") :=
  ⟨C4_missing_format_all_or_nothing.1 (fun _ => .ok [7]) 3
      ⟨"fingering_completed", none, none, none⟩ 42 _ _ rfl rfl
      (Or.inr (Or.inl rfl)),
   C4_missing_format_all_or_nothing.2 (fun _ => .ok [7]) 3
      ⟨"fingering_completed", none, none, none⟩ 42 _ _ "<score/>" "TVRoZA=="
      [7] ["<svg/>"] rfl rfl rfl rfl rfl rfl (by decide) rfl⟩

namespace Etude

/-- A renderer response containing the optional png key (one page) along
with all three required formats. -/
def pngDemoResponse : List (String × JVal) :=
  [("formats", JVal.jobj
      [("musicxml", JVal.jstr "<score/>"),
       ("midi", JVal.jstr "TVRoZA=="),
       ("svg", JVal.jarr ["<svg/>"]),
       ("png", JVal.jarr ["iVBOR"])])]

end Etude

/-- C5: refutation by evaluation — `ArtifactType` has no PNG member, so when
the renderer response does contain the optional png key the handler raises
`AttributeError` at `ArtifactType.PNG` (line 275 of `rendering_tasks.py`)
instead of storing a png artifact: the run stores the musicxml, midi and svg
artifacts, stores no png artifact, and the job ends `failed` rather than
`completed`. -/
theorem C5_png_artifact_type_missing :
    Etude.artifactTypeValue "PNG" = none ∧
    Etude.process_rendering_async (fun _ => .ok [7]) 3
        (some ⟨"fingering_completed", none, none, some []⟩) 42
        Etude.pngDemoResponse
      = (some ⟨"failed",
            some ("AttributeError: type object ArtifactType has no attribute "
              ++ "PNG"),
            none,
            some [⟨"rendering_processing", "rendering_processing", 3⟩,
                  ⟨"failed", "failed", 3⟩]⟩,
         [⟨"musicxml", Etude.strBytes "<score/>", 42⟩,
          ⟨"midi", [7], 42⟩,
          ⟨"svg", Etude.strBytes "<svg/>", 42⟩],
         false) :=
  ⟨rfl, rfl⟩
